import Mathlib

/-!
Verification of the provider-registry, JWT, bootstrap and session layers of
go-cert-provider, as a shallow embedding in Lean 4.

Go maps are modelled as association lists in which an insertion conses the new
binding to the front and a lookup returns the first binding for the key, so an
insertion for an existing key shadows (overwrites) the old binding, just as a
Go map assignment does.  Clock reads (time.Now()) are made explicit: every
operation that consults the clock takes the current time as an extra argument,
measured in integer milliseconds.  The HMAC-SHA256 primitive of the
golang-jwt/v5 dependency is modelled symbolically as a perfect MAC: the tag is
the pair of the signed content and the key, so two tags coincide exactly when
both the content and the key coincide.
-/

/-- First binding for a key in an association list (Go map lookup). -/
def mapFind {α : Type} (k : String) : List (String × α) → Option α
  | [] => none
  | (k2, v) :: rest => if k2 = k then some v else mapFind k rest

/-- Insertion into an association list (Go map assignment): the new binding
shadows any older binding for the same key. -/
def mapInsert {α : Type} (k : String) (v : α) (m : List (String × α)) :
    List (String × α) :=
  (k, v) :: m

/-- Removal of every binding for a key (Go delete). -/
def mapErase {α : Type} (k : String) (m : List (String × α)) :
    List (String × α) :=
  m.filter (fun kv => kv.1 ≠ k)

/-- A certificate provider as the registry observes it through the
domain.CertificateProvider interface: its name, its claimed domains, and the
result of ValidateConfiguration (none = valid). -/
structure CertificateProvider where
  name : String
  domains : List String
  configError : Option String
deriving DecidableEq, Repr

/-- GetProviderName of the provider interface. -/
def CertificateProvider.GetProviderName (p : CertificateProvider) : String :=
  p.name

/-- GetDomains of the provider interface. -/
def CertificateProvider.GetDomains (p : CertificateProvider) : List String :=
  p.domains

/-- registry.CertificateProviderRegistry: the provider map keyed by provider
name and the domain map keyed by domain name. -/
structure CertificateProviderRegistry where
  providers : List (String × CertificateProvider)
  domainMap : List (String × CertificateProvider)
deriving DecidableEq, Repr

/-- registry.NewCertificateProviderRegistry. -/
def NewCertificateProviderRegistry : CertificateProviderRegistry :=
  { providers := [], domainMap := [] }

/-- The domain loop of registry.Register (registry.go lines 42-48): walk the
provider's domains; on the first domain already present in the domain map,
return the duplicate-domain error together with the domain map as mutated so
far; otherwise insert the domain and continue. -/
def registerDomains (p : CertificateProvider) :
    List String → List (String × CertificateProvider) →
    Option String × List (String × CertificateProvider)
  | [], dm => (none, dm)
  | d :: rest, dm =>
    match mapFind d dm with
    | some q =>
      (some ("domain " ++ d ++ " is already managed by provider " ++
        q.GetProviderName), dm)
    | none => registerDomains p rest (mapInsert d p dm)

/-- registry.Register: reject a duplicate provider name, reject an invalid
configuration, then insert the provider into the provider map and walk its
domains.  As in the Go code the provider-map insertion happens before the
domain loop, and a duplicate-domain error returns mid-loop, so the mutations
made so far are kept. -/
def Register (r : CertificateProviderRegistry) (p : CertificateProvider) :
    Option String × CertificateProviderRegistry :=
  if (mapFind p.GetProviderName r.providers).isSome then
    (some ("provider " ++ p.GetProviderName ++ " is already registered"), r)
  else
    match p.configError with
    | some e =>
      (some ("provider " ++ p.GetProviderName ++ " configuration invalid: " ++
        e), r)
    | none =>
      let provs := mapInsert p.GetProviderName p r.providers
      let (err, dm) := registerDomains p p.domains r.domainMap
      (err, { providers := provs, domainMap := dm })

/-- registry.GetProviderForDomain: exact lookup in the domain map. -/
def GetProviderForDomain (r : CertificateProviderRegistry) (d : String) :
    Except String CertificateProvider :=
  match mapFind d r.domainMap with
  | some p => Except.ok p
  | none => Except.error ("no provider found for domain: " ++ d)

/-- registry.ListDomains: the keys of the domain map. -/
def ListDomains (r : CertificateProviderRegistry) : List String :=
  r.domainMap.map (fun kv => kv.1)

/-- registry.ListProviders: the keys of the provider map. -/
def ListProviders (r : CertificateProviderRegistry) : List String :=
  r.providers.map (fun kv => kv.1)

/-- A provider bootstrap as the bootstrap manager observes it through the
domain.ProviderBootstrap interface: its name, whether IsConfigured reports
true, and the result of CreateProvider. -/
structure ProviderBootstrap where
  name : String
  isConfigured : Bool
  createProvider : Except String CertificateProvider
deriving Repr

/-- registry.BootstrapManager. -/
structure BootstrapManager where
  bootstraps : List ProviderBootstrap
  registry : CertificateProviderRegistry
deriving Repr

/-- The loop of BootstrapManager.InitializeProviders (bootstrap_manager.go
lines 40-57): skip unconfigured bootstraps; on a CreateProvider error or a
Register error return that error at once, keeping the registry as mutated so
far; count the providers registered. -/
def initializeLoop :
    List ProviderBootstrap → CertificateProviderRegistry → Nat →
    Option String × CertificateProviderRegistry × Nat
  | [], reg, count => (none, reg, count)
  | b :: rest, reg, count =>
    if !b.isConfigured then initializeLoop rest reg count
    else
      match b.createProvider with
      | Except.error e =>
        (some ("failed to create provider " ++ b.name ++ ": " ++ e), reg,
          count)
      | Except.ok provider =>
        match Register reg provider with
        | (some e, reg2) =>
          (some ("failed to register provider " ++ b.name ++ ": " ++ e), reg2,
            count)
        | (none, reg2) => initializeLoop rest reg2 (count + 1)

/-- BootstrapManager.InitializeProviders: run the loop, then fail with the
no-providers-configured error when zero providers were registered. -/
def InitializeProviders (bm : BootstrapManager) :
    Option String × CertificateProviderRegistry :=
  match initializeLoop bm.bootstraps bm.registry 0 with
  | (some e, reg, _) => (some e, reg)
  | (none, reg, count) =>
    if count = 0 then (some "no certificate providers configured", reg)
    else (none, reg)

/-- session.UserSession.  Times are integer milliseconds. -/
structure UserSession where
  SessionID : String
  UserID : String
  Description : String
  ExpireDate : Nat
  AllowedDomains : List String
  CreatedAt : Nat
  LastAccessedAt : Nat
deriving DecidableEq, Repr

/-- session.Manager: the in-memory session map. -/
structure SessionManager where
  sessions : List (String × UserSession)
deriving DecidableEq, Repr

/-- The fixed session TTL of session.CreateSession: 30 minutes, in
milliseconds. -/
def sessionTTL : Nat := 30 * 60 * 1000

/-- session.Manager.CreateSession.  The freshly drawn uuid and the clock read
are explicit arguments; the effective expiry is the caller expiry when that is
strictly before now + 30 minutes, and now + 30 minutes otherwise. -/
def CreateSession (sm : SessionManager) (sessionID : String) (now : Nat)
    (userID descr : String) (expireDate : Nat)
    (allowedDomains : List String) : String × SessionManager :=
  let sessionExpiry := if expireDate < now + sessionTTL then expireDate
    else now + sessionTTL
  let s : UserSession :=
    { SessionID := sessionID, UserID := userID, Description := descr,
      ExpireDate := sessionExpiry, AllowedDomains := allowedDomains,
      CreatedAt := now, LastAccessedAt := now }
  (sessionID, { sessions := mapInsert sessionID s sm.sessions })

/-- session.Manager.DeleteSession: idempotent removal. -/
def DeleteSession (sm : SessionManager) (sessionID : String) :
    SessionManager :=
  { sessions := mapErase sessionID sm.sessions }

/-- session.Manager.GetSession: not-found when the id is absent; when the
session is present but now is strictly after its expiry, it is (lazily)
deleted and not-found is reported; otherwise lastAccessedAt is set to now and
the session is returned. -/
def GetSession (sm : SessionManager) (sessionID : String) (now : Nat) :
    Option UserSession × SessionManager :=
  match mapFind sessionID sm.sessions with
  | none => (none, sm)
  | some s =>
    if now > s.ExpireDate then (none, DeleteSession sm sessionID)
    else
      let s2 := { s with LastAccessedAt := now }
      (some s2, { sessions := mapInsert sessionID s2 sm.sessions })

/-- The signing algorithms that can appear in a token header. -/
inductive SigAlg where
  | HS256
  | HS384
  | HS512
  | RS256
  | none_
deriving DecidableEq, Repr

/-- Whether the algorithm is an HMAC method (jwt.SigningMethodHMAC). -/
def SigAlg.isHMAC : SigAlg → Bool
  | SigAlg.HS256 => true
  | SigAlg.HS384 => true
  | SigAlg.HS512 => true
  | _ => false

/-- auth.JWTClaims together with the embedded jwt.RegisteredClaims fields the
code sets or checks.  The numeric-date fields hold whole seconds, as JWT
NumericDate serialization does. -/
structure JWTClaims where
  UserID : String
  Description : String
  AllowedDomains : List String
  ExpiresAt : Option Nat
  IssuedAt : Option Nat
  NotBefore : Option Nat
  Issuer : String
  Subject : String
deriving DecidableEq, Repr

/-- A symbolic HMAC tag: the signed content (algorithm and claims, standing
for the base64url header and payload segments) paired with the key.  Tag
equality therefore holds exactly when content and key both agree, which is the
idealized MAC property. -/
structure MacTag where
  alg : SigAlg
  payload : JWTClaims
  key : String
deriving DecidableEq, Repr

/-- hmacSign alg claims key is the tag crypto/hmac computes over the signing
string with the key.  HMAC accepts a byte key of any length, the empty key
included, and SHA-256 is always available, so signing never fails. -/
def hmacSign (alg : SigAlg) (claims : JWTClaims) (key : String) : MacTag :=
  { alg := alg, payload := claims, key := key }

/-- A token string: either not a well-formed three-segment JWT, or a
well-formed token carrying a header algorithm, a claims payload and a
signature segment. -/
inductive TokenString where
  | malformed (raw : String)
  | signed (alg : SigAlg) (claims : JWTClaims) (sig : MacTag)
deriving DecidableEq, Repr

/-- auth.CreateJWT: build the claims with exp = expiresAt, iat = nbf = now,
issuer go-cert-provider and subject userID, then sign with HS256.  Times are
milliseconds and NumericDate truncates them to whole seconds.  The only error
path in the Go code is a SignedString failure, and HMAC-SHA256 signing with a
byte-slice key never fails, for the empty key included. -/
def CreateJWT (userID descr : String) (expiresAt : Nat)
    (allowedDomains : List String) (secret : String) (now : Nat) :
    Except String TokenString :=
  let claims : JWTClaims :=
    { UserID := userID, Description := descr,
      AllowedDomains := allowedDomains,
      ExpiresAt := some (expiresAt / 1000), IssuedAt := some (now / 1000),
      NotBefore := some (now / 1000), Issuer := "go-cert-provider",
      Subject := userID }
  Except.ok (TokenString.signed SigAlg.HS256 claims
    (hmacSign SigAlg.HS256 claims secret))

/-- The registered-claims validation golang-jwt/v5 runs inside
ParseWithClaims with default options: exp is checked only when present (the
token is expired when now is after exp), nbf only when present (the token is
not yet valid when now is before nbf), iat is not verified.  Returns the first
failing check. -/
def validateRegisteredClaims (claims : JWTClaims) (now : Nat) :
    Option String :=
  match claims.ExpiresAt with
  | some e =>
    if now > e * 1000 then some "token is expired"
    else
      match claims.NotBefore with
      | some n => if now < n * 1000 then some "token is not valid yet"
        else none
      | none => none
  | none =>
    match claims.NotBefore with
    | some n => if now < n * 1000 then some "token is not valid yet" else none
    | none => none

/-- auth.ValidateJWTWithSecret: jwt.ParseWithClaims with a key function that
rejects any non-HMAC signing method; the signature is then checked against the
key and the registered claims are validated.  No check of user_id or
descriptionClaim happens on this path. -/
def ValidateJWTWithSecret (tok : TokenString) (secret : String) (now : Nat) :
    Except String JWTClaims :=
  match tok with
  | TokenString.malformed _ =>
    Except.error "failed to validate JWT: token contains an invalid number of segments"
  | TokenString.signed alg claims sig =>
    if !alg.isHMAC then
      Except.error "failed to validate JWT: unexpected signing method"
    else if sig ≠ hmacSign alg claims secret then
      Except.error "failed to validate JWT: signature is invalid"
    else
      match validateRegisteredClaims claims now with
      | some e => Except.error ("failed to validate JWT: " ++ e)
      | none => Except.ok claims

/-- auth.parseJWTWithoutVerification: ParseUnverified, then the hand-written
checks of jwt.go lines 43-53: expiry only when ExpiresAt is non-nil, then the
required user_id and description claims. -/
def parseJWTWithoutVerification (tok : TokenString) (now : Nat) :
    Except String JWTClaims :=
  match tok with
  | TokenString.malformed _ => Except.error "failed to parse JWT"
  | TokenString.signed _ claims _ =>
    if (match claims.ExpiresAt with
        | some e => decide (now > e * 1000)
        | none => false) then
      Except.error "JWT token is expired"
    else if claims.UserID = "" then
      Except.error "user_id is required in JWT"
    else if claims.Description = "" then
      Except.error "description is required in JWT"
    else Except.ok claims

/-- auth.ParseJWT: secret verification when a secret is given, the unverified
parse otherwise. -/
def ParseJWT (tok : TokenString) (secret : String) (now : Nat) :
    Except String JWTClaims :=
  if secret ≠ "" then ValidateJWTWithSecret tok secret now
  else parseJWTWithoutVerification tok now

/-- The successive insertions the domain loop of Register performs for a list
of fresh domains: each one maps to the same provider. -/
def insertDomainsList (p : CertificateProvider) :
    List String → List (String × CertificateProvider) →
    List (String × CertificateProvider)
  | [], dm => dm
  | d :: rest, dm => insertDomainsList p rest (mapInsert d p dm)

/-- A provider claiming a.com, as in the spec scenarios. -/
def provA : CertificateProvider :=
  { name := "p1", domains := ["a.com"], configError := none }

/-- A provider claiming b.com, as in the resolution scenario. -/
def provB : CertificateProvider :=
  { name := "p2", domains := ["b.com"], configError := none }

/-- A second provider that claims a fresh domain x.com and then the already
claimed a.com. -/
def provDup : CertificateProvider :=
  { name := "p2", domains := ["x.com", "a.com"], configError := none }

/-- The registry after provA registered into the empty registry. -/
def regA : CertificateProviderRegistry :=
  (Register NewCertificateProviderRegistry provA).2

/-- The registry after provA and provB registered. -/
def regAB : CertificateProviderRegistry := (Register regA provB).2

/-- A provider a working bootstrap yields. -/
def provGood : CertificateProvider :=
  { name := "porkbun", domains := ["good.com"], configError := none }

/-- A configured bootstrap whose CreateProvider succeeds. -/
def goodBootstrap : ProviderBootstrap :=
  { name := "porkbun", isConfigured := true,
    createProvider := Except.ok provGood }

/-- A configured bootstrap whose CreateProvider fails (a configuration
error). -/
def badBootstrap : ProviderBootstrap :=
  { name := "flaky", isConfigured := true,
    createProvider := Except.error "invalid credentials" }

/-- A bootstrap manager holding one working and one failing configured
bootstrap over an empty registry. -/
def bmMixed : BootstrapManager :=
  { bootstraps := [goodBootstrap, badBootstrap],
    registry := NewCertificateProviderRegistry }

/-- A bootstrap manager holding only the failing bootstrap. -/
def bmBadOnly : BootstrapManager :=
  { bootstraps := [badBootstrap], registry := NewCertificateProviderRegistry }

theorem mapFind_insert_self {α : Type} (k : String) (v : α)
    (m : List (String × α)) : mapFind k (mapInsert k v m) = some v := by
  simp [mapFind, mapInsert]

theorem mapFind_insert_ne {α : Type} (k k2 : String) (v : α)
    (m : List (String × α)) (h : k2 ≠ k) :
    mapFind k (mapInsert k2 v m) = mapFind k m := by
  simp [mapFind, mapInsert, h]

theorem mapFind_erase_self {α : Type} (k : String) (m : List (String × α)) :
    mapFind k (mapErase k m) = none := by
  induction m with
  | nil => rfl
  | cons kv rest ih =>
    by_cases h : kv.1 = k
    · simpa [mapErase, List.filter_cons, h] using ih
    · simpa [mapErase, List.filter_cons, h, mapFind] using ih

theorem insertDomainsList_length (p : CertificateProvider) (ds : List String)
    (dm : List (String × CertificateProvider)) :
    (insertDomainsList p ds dm).length = dm.length + ds.length := by
  induction ds generalizing dm with
  | nil => simp [insertDomainsList]
  | cons d rest ih =>
    simp only [insertDomainsList]
    rw [ih]
    simp [mapInsert]
    omega

theorem insertDomainsList_find_notmem (p : CertificateProvider)
    (ds : List String) (dm : List (String × CertificateProvider)) (x : String)
    (hx : x ∉ ds) :
    mapFind x (insertDomainsList p ds dm) = mapFind x dm := by
  induction ds generalizing dm with
  | nil => rfl
  | cons d rest ih =>
    simp only [insertDomainsList]
    rw [ih _ (fun h => hx (List.mem_cons_of_mem _ h))]
    exact mapFind_insert_ne x d p dm (fun h => hx (h ▸ List.mem_cons_self d rest))

theorem insertDomainsList_find_mem (p : CertificateProvider)
    (ds : List String) (dm : List (String × CertificateProvider)) (x : String)
    (hx : x ∈ ds) :
    mapFind x (insertDomainsList p ds dm) = some p := by
  induction ds generalizing dm with
  | nil => cases hx
  | cons d rest ih =>
    by_cases hr : x ∈ rest
    · exact ih _ hr
    · have hxd : x = d := by
        rcases List.mem_cons.mp hx with h | h
        · exact h
        · exact absurd h hr
      subst hxd
      simp only [insertDomainsList]
      rw [insertDomainsList_find_notmem p rest _ x hr]
      exact mapFind_insert_self x p dm

theorem registerDomains_conflict (p q : CertificateProvider)
    (pre : List String) (d : String) (rest : List String)
    (dm : List (String × CertificateProvider))
    (hpre : ∀ x ∈ pre, mapFind x dm = none) (hnd : pre.Nodup)
    (hd : mapFind d dm = some q) :
    registerDomains p (pre ++ d :: rest) dm =
      (some ("domain " ++ d ++ " is already managed by provider " ++
        q.GetProviderName), insertDomainsList p pre dm) := by
  induction pre generalizing dm with
  | nil => simp [registerDomains, hd, insertDomainsList]
  | cons x pre2 ih =>
    have hx : mapFind x dm = none := hpre x (List.mem_cons_self x pre2)
    have hnd2 := List.nodup_cons.mp hnd
    simp only [List.cons_append, registerDomains, hx]
    have hstep := ih (mapInsert x p dm) ?_ hnd2.2 ?_
    · simpa [insertDomainsList] using hstep
    · intro y hy
      have hyne : x ≠ y := fun h => hnd2.1 (h ▸ hy)
      rw [mapFind_insert_ne y x p dm hyne]
      exact hpre y (List.mem_cons_of_mem x hy)
    · have hdx : x ≠ d := by
        intro h
        rw [h, hd] at hx
        cases hx
      rw [mapFind_insert_ne d x p dm hdx]
      exact hd

/-- C1 counterexample.  Register provA claiming a.com into the empty
registry, then Register provDup, whose name is fresh and whose domain list is
x.com followed by the already claimed a.com.  The call returns a
duplicate-domain error, yet provDup stays in the provider map, its domain
x.com stays in the domain map, and the registered domain count grows from 1 to
2: registration is not all-or-nothing. -/
theorem register_not_all_or_nothing :
    (Register regA provDup).1.isSome = true ∧
    mapFind "p2" (Register regA provDup).2.providers = some provDup ∧
    mapFind "x.com" (Register regA provDup).2.domainMap = some provDup ∧
    (ListDomains regA).length = 1 ∧
    (ListDomains (Register regA provDup).2).length = 2 := by decide

/-- C1 (amended).  When a provider with a fresh name and a valid
configuration claims a domain already present in the domain map, Register
returns an error, but the registry is left partially mutated: the new provider
is present in the provider map, every domain preceding the first conflicting
one is present in the domain map mapped to the new provider, and the
registered domain count grows by the number of those preceding domains (so it
is unchanged exactly when the conflicting domain comes first). -/
theorem register_duplicate_domain_keeps_partial_state
    (r : CertificateProviderRegistry) (p q : CertificateProvider)
    (pre : List String) (d : String) (rest : List String)
    (hname : mapFind p.name r.providers = none)
    (hcfg : p.configError = none)
    (hdoms : p.domains = pre ++ d :: rest)
    (hpre : ∀ x ∈ pre, mapFind x r.domainMap = none)
    (hnd : pre.Nodup)
    (hd : mapFind d r.domainMap = some q) :
    (Register r p).1.isSome = true ∧
    mapFind p.name (Register r p).2.providers = some p ∧
    (∀ x ∈ pre, mapFind x (Register r p).2.domainMap = some p) ∧
    (ListDomains (Register r p).2).length =
      (ListDomains r).length + pre.length := by
  have hconf := registerDomains_conflict p q pre d rest r.domainMap hpre hnd hd
  have hreg : Register r p =
      (some ("domain " ++ d ++ " is already managed by provider " ++
        q.GetProviderName),
       { providers := mapInsert p.name p r.providers,
         domainMap := insertDomainsList p pre r.domainMap }) := by
    simp [Register, CertificateProvider.GetProviderName, hname, hcfg, hdoms,
      hconf]
  rw [hreg]
  refine ⟨rfl, mapFind_insert_self _ _ _, ?_, ?_⟩
  · intro x hx
    exact insertDomainsList_find_mem p pre r.domainMap x hx
  · simp only [ListDomains, List.length_map]
    exact insertDomainsList_length p pre r.domainMap

/-- C1 witness: the amended theorem applied to the concrete counterexample
registry. -/
theorem register_duplicate_domain_keeps_partial_state_witness :
    (Register regA provDup).1.isSome = true ∧
    mapFind provDup.name (Register regA provDup).2.providers = some provDup ∧
    (∀ x ∈ ["x.com"],
      mapFind x (Register regA provDup).2.domainMap = some provDup) ∧
    (ListDomains (Register regA provDup).2).length =
      (ListDomains regA).length + (["x.com"] : List String).length :=
  register_duplicate_domain_keeps_partial_state regA provDup provA
    ["x.com"] "a.com" [] (by decide) rfl rfl (by decide) (by decide)
    (by decide)

/-- C6.  GetProviderForDomain is exact lookup in the domain map: it returns
the provider mapped to the exact domain string when a mapping exists and the
unknown-domain error otherwise, with no wildcard matching; in the concrete
scenario with providers claiming a.com and b.com, both registrations succeed,
a.com resolves to the first provider and c.com fails. -/
theorem getProviderForDomain_exact :
    (∀ r d p, mapFind d r.domainMap = some p →
      GetProviderForDomain r d = Except.ok p) ∧
    (∀ r d, mapFind d r.domainMap = none →
      GetProviderForDomain r d =
        Except.error ("no provider found for domain: " ++ d)) ∧
    (Register NewCertificateProviderRegistry provA).1 = none ∧
    (Register regA provB).1 = none ∧
    GetProviderForDomain regAB "a.com" = Except.ok provA ∧
    GetProviderForDomain regAB "c.com" =
      Except.error "no provider found for domain: c.com" := by
  refine ⟨?_, ?_, by decide, by decide, by rfl, by rfl⟩
  · intro r d p h
    simp [GetProviderForDomain, h]
  · intro r d h
    simp [GetProviderForDomain, h]

/-- C6 witness: the exact-lookup direction applied at the scenario registry
and b.com. -/
theorem getProviderForDomain_exact_witness :
    GetProviderForDomain regAB "b.com" = Except.ok provB :=
  getProviderForDomain_exact.1 regAB "b.com" provB (by decide)

theorem initializeLoop_create_error (bs : List ProviderBootstrap)
    (reg : CertificateProviderRegistry) (count : Nat)
    (h : ∃ b ∈ bs, b.isConfigured = true ∧
      ∃ e, b.createProvider = Except.error e) :
    (initializeLoop bs reg count).1.isSome = true := by
  induction bs generalizing reg count with
  | nil =>
    rcases h with ⟨b, hb, _⟩
    cases hb
  | cons b rest ih =>
    rcases h with ⟨b0, hb0, hconf0, e0, herr0⟩
    have hmem := List.mem_cons.mp hb0
    by_cases hc : b.isConfigured
    · cases hcp : b.createProvider with
      | error e => simp [initializeLoop, hc, hcp]
      | ok provider =>
        have hrest : ∃ bb ∈ rest, bb.isConfigured = true ∧
            ∃ e, bb.createProvider = Except.error e := by
          rcases hmem with hb0b | hb0rest
          · subst hb0b
            rw [hcp] at herr0
            cases herr0
          · exact ⟨b0, hb0rest, hconf0, e0, herr0⟩
        cases hr : Register reg provider with
        | mk err reg2 =>
          cases err with
          | some e => simp [initializeLoop, hc, hcp, hr]
          | none =>
            simp only [initializeLoop, hc, hcp, hr, Bool.not_true,
              Bool.false_eq_true, if_false]
            exact ih reg2 (count + 1) hrest
    · have hrest : ∃ bb ∈ rest, bb.isConfigured = true ∧
          ∃ e, bb.createProvider = Except.error e := by
        rcases hmem with hb0b | hb0rest
        · subst hb0b
          exact absurd hconf0 hc
        · exact ⟨b0, hb0rest, hconf0, e0, herr0⟩
      simp only [initializeLoop, Bool.not_eq_true', eq_self_iff_true]
      rw [if_pos]
      · exact ih reg count hrest
      · simp [Bool.eq_false_iff.mpr hc]

/-- C5 counterexample.  bmMixed holds a configured bootstrap that creates and
registers a provider successfully and a configured bootstrap whose
CreateProvider fails.  The working provider is registered (it is in the
resulting provider map, and its registration in isolation succeeds), yet
InitializeProviders fails: a single CreateProvider failure aborts the whole
startup even though another provider activated. -/
theorem initializeProviders_aborts_despite_success :
    (InitializeProviders bmMixed).1.isSome = true ∧
    mapFind "porkbun" (InitializeProviders bmMixed).2.providers =
      some provGood ∧
    (Register NewCertificateProviderRegistry provGood).1 = none := by decide

/-- C5 (amended).  InitializeProviders fails whenever any configured
bootstrap's CreateProvider fails, even if other configured bootstraps create
and register their providers successfully: the loop aborts at the first
failure instead of skipping that provider. -/
theorem initializeProviders_fails_on_create_error (bm : BootstrapManager)
    (h : ∃ b ∈ bm.bootstraps, b.isConfigured = true ∧
      ∃ e, b.createProvider = Except.error e) :
    (InitializeProviders bm).1.isSome = true := by
  have hloop := initializeLoop_create_error bm.bootstraps bm.registry 0 h
  unfold InitializeProviders
  cases hres : initializeLoop bm.bootstraps bm.registry 0 with
  | mk err rest =>
    cases err with
    | some e => rfl
    | none =>
      rw [hres] at hloop
      cases hloop

/-- C5 witness: the amended theorem applied to the manager holding only the
failing bootstrap. -/
theorem initializeProviders_fails_on_create_error_witness :
    (InitializeProviders bmBadOnly).1.isSome = true :=
  initializeProviders_fails_on_create_error bmBadOnly
    ⟨badBootstrap, List.mem_cons_self badBootstrap [], rfl,
      "invalid credentials", rfl⟩

theorem sessionExpiry_eq_min (expd now : Nat) :
    (if expd < now + sessionTTL then expd else now + sessionTTL) =
      min expd (now + sessionTTL) := by
  rw [Nat.min_def]
  split <;> split <;> omega

/-- C7.  CreateSession at clock reading now stores a session whose expiry is
the minimum of the caller expiry and now + 30 minutes, whose CreatedAt and
LastAccessedAt both equal now, and the returned session id maps to exactly
that stored session. -/
theorem createSession_stores_min_expiry (sm : SessionManager)
    (sid : String) (now : Nat) (u d : String) (expd : Nat)
    (ds : List String) :
    (CreateSession sm sid now u d expd ds).1 = sid ∧
    mapFind sid (CreateSession sm sid now u d expd ds).2.sessions =
      some { SessionID := sid, UserID := u, Description := d,
             ExpireDate := min expd (now + sessionTTL),
             AllowedDomains := ds, CreatedAt := now,
             LastAccessedAt := now } := by
  refine ⟨rfl, ?_⟩
  simp [CreateSession, mapFind, mapInsert, sessionExpiry_eq_min expd now]

/-- C8.  For a session just created: GetSession with the returned id at any
time not after the stored expiry returns the session with the same UserID and
AllowedDomains and with LastAccessedAt updated to the read time; GetSession
after DeleteSession of that id reports not-found; and GetSession at any time
strictly after the stored expiry reports not-found. -/
theorem getSession_lifecycle (sm : SessionManager) (sid : String)
    (now : Nat) (u d : String) (expd : Nat) (ds : List String)
    (now2 : Nat) :
    (now2 ≤ min expd (now + sessionTTL) →
      (GetSession (CreateSession sm sid now u d expd ds).2 sid now2).1 =
        some { SessionID := sid, UserID := u, Description := d,
               ExpireDate := min expd (now + sessionTTL),
               AllowedDomains := ds, CreatedAt := now,
               LastAccessedAt := now2 }) ∧
    (GetSession (DeleteSession (CreateSession sm sid now u d expd ds).2 sid)
      sid now2).1 = none ∧
    (now2 > min expd (now + sessionTTL) →
      (GetSession (CreateSession sm sid now u d expd ds).2 sid now2).1 =
        none) := by
  have hfind : mapFind sid
      (CreateSession sm sid now u d expd ds).2.sessions =
      some { SessionID := sid, UserID := u, Description := d,
             ExpireDate := min expd (now + sessionTTL),
             AllowedDomains := ds, CreatedAt := now,
             LastAccessedAt := now } := by
    simp [CreateSession, mapFind, mapInsert, sessionExpiry_eq_min expd now]
  refine ⟨?_, ?_, ?_⟩
  · intro h
    have hnot : ¬ now2 > min expd (now + sessionTTL) := by omega
    simp [GetSession, hfind, hnot]
  · simp [GetSession, DeleteSession, mapFind_erase_self]
  · intro h
    simp [GetSession, hfind, h]

/-- C8 witness: the lifecycle theorem at a concrete session read before its
expiry and strictly after it. -/
theorem getSession_lifecycle_witness :
    (GetSession
      (CreateSession { sessions := [] } "s1" 0 "u" "d" 1000 ["a.com"]).2
      "s1" 500).1 =
      some { SessionID := "s1", UserID := "u", Description := "d",
             ExpireDate := min 1000 (0 + sessionTTL),
             AllowedDomains := ["a.com"], CreatedAt := 0,
             LastAccessedAt := 500 } ∧
    (GetSession
      (CreateSession { sessions := [] } "s1" 0 "u" "d" 1000 ["a.com"]).2
      "s1" 2000).1 = none :=
  ⟨(getSession_lifecycle { sessions := [] } "s1" 0 "u" "d" 1000 ["a.com"]
      500).1 (by decide),
   (getSession_lifecycle { sessions := [] } "s1" 0 "u" "d" 1000 ["a.com"]
      2000).2.2 (by decide)⟩

/-- C2.  Issue/verify round trip: a token created with a non-empty key and
non-empty user id and description, verified with the same key at a time no
earlier than issuance and not after the (second-truncated) expiry, verifies
successfully and returns claims whose UserID, Description and AllowedDomains
equal the issued values exactly, with the recovered expiry within one second
below the requested expiry (NumericDate truncates to whole seconds). -/
theorem issue_verify_roundtrip (u d : String) (e : Nat) (ds : List String)
    (k : String) (now now2 : Nat) (hk : k ≠ "") (hu : u ≠ "") (hd : d ≠ "")
    (h1 : now ≤ now2) (h2 : now2 ≤ e / 1000 * 1000) :
    ∃ tok, CreateJWT u d e ds k now = Except.ok tok ∧
    ∃ cl, ParseJWT tok k now2 = Except.ok cl ∧
      cl.UserID = u ∧ cl.Description = d ∧ cl.AllowedDomains = ds ∧
      ∃ es, cl.ExpiresAt = some es ∧ es * 1000 ≤ e ∧ e - es * 1000 < 1000 := by
  have hnbf : now / 1000 * 1000 ≤ now2 :=
    le_trans (Nat.div_mul_le_self now 1000) h1
  have hvalid : validateRegisteredClaims
      { UserID := u, Description := d, AllowedDomains := ds,
        ExpiresAt := some (e / 1000), IssuedAt := some (now / 1000),
        NotBefore := some (now / 1000), Issuer := "go-cert-provider",
        Subject := u } now2 = none := by
    simp only [validateRegisteredClaims]
    rw [if_neg (by omega), if_neg (by omega)]
  refine ⟨_, rfl, ?_⟩
  refine ⟨{ UserID := u, Description := d, AllowedDomains := ds,
            ExpiresAt := some (e / 1000), IssuedAt := some (now / 1000),
            NotBefore := some (now / 1000), Issuer := "go-cert-provider",
            Subject := u }, ?_, rfl, rfl, rfl, e / 1000, rfl,
          Nat.div_mul_le_self e 1000, ?_⟩
  · simp only [CreateJWT, ParseJWT]
    rw [if_pos hk]
    simp only [ValidateJWTWithSecret, SigAlg.isHMAC, Bool.not_true,
      Bool.false_eq_true, if_false, hvalid]
    rw [if_neg (by simp)]
  · have h3 := Nat.div_add_mod e 1000
    have h4 : e % 1000 < 1000 := Nat.mod_lt e (by norm_num)
    omega

/-- C2 witness: the round trip at concrete inputs. -/
theorem issue_verify_roundtrip_witness :
    ∃ tok, CreateJWT "u" "d" 10500 ["a.com"] "k" 0 = Except.ok tok ∧
    ∃ cl, ParseJWT tok "k" 1000 = Except.ok cl ∧
      cl.UserID = "u" ∧ cl.Description = "d" ∧
      cl.AllowedDomains = ["a.com"] ∧
      ∃ es, cl.ExpiresAt = some es ∧ es * 1000 ≤ 10500 ∧
        10500 - es * 1000 < 1000 :=
  issue_verify_roundtrip "u" "d" 10500 ["a.com"] "k" 0 1000 (by decide)
    (by decide) (by decide) (by decide) (by decide)

/-- C3 counterexample.  CreateJWT with the empty signing key succeeds and
returns a token, contradicting the claim that issuance fails whenever the
signing key is the empty string: HMAC-SHA256 accepts a zero-length key, and
the Go code performs no emptiness check on the secret. -/
theorem createJWT_empty_key_succeeds :
    ∃ tok, CreateJWT "user" "desc" 60000 ["a.com"] "" 0 = Except.ok tok :=
  ⟨_, rfl⟩

/-- C3 (amended).  CreateJWT never fails: it succeeds for every combination of
arguments, the empty signing key included, and with a non-empty key it
succeeds even when userID, description and allowedDomains are empty or
nil. -/
theorem createJWT_always_succeeds (u d : String) (e : Nat)
    (ds : List String) (k : String) (now : Nat) :
    ∃ tok, CreateJWT u d e ds k now = Except.ok tok :=
  ⟨_, rfl⟩

/-- C4 counterexample.  A correctly signed, unexpired token whose user_id and
description claims are both empty is accepted by ParseJWT under the non-empty
key "k": the claims come back instead of a missing-required-claim error. -/
theorem parseJWT_missing_claims_accepted :
    ((CreateJWT "" "" 60000 [] "k" 0).bind
      (fun tok => ParseJWT tok "k" 0)).toOption =
      some { UserID := "", Description := "", AllowedDomains := [],
             ExpiresAt := some 60, IssuedAt := some 0, NotBefore := some 0,
             Issuer := "go-cert-provider", Subject := "" } := by decide

/-- C4 (amended).  With a non-empty signing key, verification performs no
required-claim check: a well-formed HMAC token whose signature matches the key
and whose registered claims validate is accepted and its claims returned even
when its user_id or description claim is empty.  Only the empty-key
unverified-parse path enforces the two required claims. -/
theorem validate_with_secret_skips_required_claims (alg : SigAlg)
    (claims : JWTClaims) (key : String) (now : Nat) (hkey : key ≠ "")
    (halg : alg.isHMAC = true)
    (hvalid : validateRegisteredClaims claims now = none)
    (hmissing : claims.UserID = "" ∨ claims.Description = "") :
    ParseJWT (TokenString.signed alg claims (hmacSign alg claims key)) key
        now = Except.ok claims ∧
    parseJWTWithoutVerification
        (TokenString.signed alg claims (hmacSign alg claims key)) now ≠
      Except.ok claims := by
  constructor
  · simp only [ParseJWT, if_pos hkey, ValidateJWTWithSecret, halg,
      Bool.not_true, Bool.false_eq_true, if_false, hvalid]
    rw [if_neg (by simp)]
  · intro hcon
    simp only [parseJWTWithoutVerification] at hcon
    split at hcon
    · cases hcon
    · rcases hmissing with hmu | hmd
      · rw [if_pos hmu] at hcon
        cases hcon
      · by_cases hmu : claims.UserID = ""
        · rw [if_pos hmu] at hcon
          cases hcon
        · rw [if_neg hmu, if_pos hmd] at hcon
          cases hcon

/-- C4 witness: the amended theorem at the concrete empty-claims token. -/
theorem validate_with_secret_skips_required_claims_witness :
    ParseJWT (TokenString.signed SigAlg.HS256
      { UserID := "", Description := "", AllowedDomains := [],
        ExpiresAt := some 60, IssuedAt := some 0, NotBefore := some 0,
        Issuer := "go-cert-provider", Subject := "" }
      (hmacSign SigAlg.HS256
        { UserID := "", Description := "", AllowedDomains := [],
          ExpiresAt := some 60, IssuedAt := some 0, NotBefore := some 0,
          Issuer := "go-cert-provider", Subject := "" } "k")) "k" 0 =
      Except.ok
        { UserID := "", Description := "", AllowedDomains := [],
          ExpiresAt := some 60, IssuedAt := some 0, NotBefore := some 0,
          Issuer := "go-cert-provider", Subject := "" } ∧
    parseJWTWithoutVerification (TokenString.signed SigAlg.HS256
      { UserID := "", Description := "", AllowedDomains := [],
        ExpiresAt := some 60, IssuedAt := some 0, NotBefore := some 0,
        Issuer := "go-cert-provider", Subject := "" }
      (hmacSign SigAlg.HS256
        { UserID := "", Description := "", AllowedDomains := [],
          ExpiresAt := some 60, IssuedAt := some 0, NotBefore := some 0,
          Issuer := "go-cert-provider", Subject := "" } "k")) 0 ≠
      Except.ok
        { UserID := "", Description := "", AllowedDomains := [],
          ExpiresAt := some 60, IssuedAt := some 0, NotBefore := some 0,
          Issuer := "go-cert-provider", Subject := "" } :=
  validate_with_secret_skips_required_claims SigAlg.HS256
    { UserID := "", Description := "", AllowedDomains := [],
      ExpiresAt := some 60, IssuedAt := some 0, NotBefore := some 0,
      Issuer := "go-cert-provider", Subject := "" } "k" 0 (by decide) rfl
    (by decide) (Or.inl rfl)

/-- C9.  A well-formed token whose claims carry no exp field is never
rejected as expired: the unverified parse path never returns the expired
error, the registered-claims validation never reports expiry, and the
secret-verified path never returns the expired error, at every clock
reading. -/
theorem no_exp_never_expires (alg : SigAlg) (claims : JWTClaims)
    (tag : MacTag) (secret : String) (now : Nat)
    (hexp : claims.ExpiresAt = none) :
    parseJWTWithoutVerification (TokenString.signed alg claims tag) now ≠
      Except.error "JWT token is expired" ∧
    validateRegisteredClaims claims now ≠ some "token is expired" ∧
    ValidateJWTWithSecret (TokenString.signed alg claims tag) secret now ≠
      Except.error "failed to validate JWT: token is expired" := by
  have hval : ∀ s, validateRegisteredClaims claims now = some s →
      s = "token is not valid yet" := by
    intro s hs
    cases hnb : claims.NotBefore with
    | none => simp [validateRegisteredClaims, hexp, hnb] at hs
    | some n =>
      simp only [validateRegisteredClaims, hexp, hnb] at hs
      by_cases hlt : now < n * 1000
      · rw [if_pos hlt] at hs
        exact (Option.some.inj hs).symm
      · rw [if_neg hlt] at hs
        cases hs
  refine ⟨?_, ?_, ?_⟩
  · intro hcon
    simp only [parseJWTWithoutVerification, hexp, Bool.false_eq_true,
      if_false] at hcon
    split at hcon
    · injection hcon with h
      exact absurd h (by decide)
    · split at hcon
      · injection hcon with h
        exact absurd h (by decide)
      · cases hcon
  · intro hcon
    have h := hval _ hcon
    exact absurd h (by decide)
  · intro hcon
    simp only [ValidateJWTWithSecret] at hcon
    split at hcon
    · injection hcon with h
      exact absurd h (by decide)
    · split at hcon
      · injection hcon with h
        exact absurd h (by decide)
      · split at hcon
        · rename_i s hv
          have hs := hval s hv
          subst hs
          injection hcon with h
          exact absurd h (by decide)
        · cases hcon

/-- C9 witness: the theorem at a concrete exp-less token. -/
theorem no_exp_never_expires_witness :
    parseJWTWithoutVerification (TokenString.signed SigAlg.HS256
      { UserID := "u", Description := "d", AllowedDomains := [],
        ExpiresAt := none, IssuedAt := none, NotBefore := none,
        Issuer := "", Subject := "" }
      (hmacSign SigAlg.HS256
        { UserID := "u", Description := "d", AllowedDomains := [],
          ExpiresAt := none, IssuedAt := none, NotBefore := none,
          Issuer := "", Subject := "" } "k")) 999999999 ≠
      Except.error "JWT token is expired" ∧
    validateRegisteredClaims
      { UserID := "u", Description := "d", AllowedDomains := [],
        ExpiresAt := none, IssuedAt := none, NotBefore := none,
        Issuer := "", Subject := "" } 999999999 ≠ some "token is expired" ∧
    ValidateJWTWithSecret (TokenString.signed SigAlg.HS256
      { UserID := "u", Description := "d", AllowedDomains := [],
        ExpiresAt := none, IssuedAt := none, NotBefore := none,
        Issuer := "", Subject := "" }
      (hmacSign SigAlg.HS256
        { UserID := "u", Description := "d", AllowedDomains := [],
          ExpiresAt := none, IssuedAt := none, NotBefore := none,
          Issuer := "", Subject := "" } "k")) "k" 999999999 ≠
      Except.error "failed to validate JWT: token is expired" :=
  no_exp_never_expires SigAlg.HS256
    { UserID := "u", Description := "d", AllowedDomains := [],
      ExpiresAt := none, IssuedAt := none, NotBefore := none,
      Issuer := "", Subject := "" }
    (hmacSign SigAlg.HS256
      { UserID := "u", Description := "d", AllowedDomains := [],
        ExpiresAt := none, IssuedAt := none, NotBefore := none,
        Issuer := "", Subject := "" } "k") "k" 999999999 rfl

/-- C10.  A well-formed token whose header declares a non-HMAC signing
method (none, RS256, ...) is rejected by ValidateJWTWithSecret with the
unexpected-signing-method error for every key, every claims payload, every
signature and every clock reading, so its claims are never returned. -/
theorem non_hmac_alg_rejected (alg : SigAlg) (claims : JWTClaims)
    (tag : MacTag) (key : String) (now : Nat) (h : alg.isHMAC = false) :
    ValidateJWTWithSecret (TokenString.signed alg claims tag) key now =
      Except.error "failed to validate JWT: unexpected signing method" := by
  simp [ValidateJWTWithSecret, h]

/-- C10 witness: the theorem at the alg-none token, with a signature that
even matches the key. -/
theorem non_hmac_alg_rejected_witness :
    ValidateJWTWithSecret (TokenString.signed SigAlg.none_
      { UserID := "u", Description := "d", AllowedDomains := ["a.com"],
        ExpiresAt := some 60, IssuedAt := some 0, NotBefore := some 0,
        Issuer := "go-cert-provider", Subject := "u" }
      (hmacSign SigAlg.none_
        { UserID := "u", Description := "d", AllowedDomains := ["a.com"],
          ExpiresAt := some 60, IssuedAt := some 0, NotBefore := some 0,
          Issuer := "go-cert-provider", Subject := "u" } "k")) "k" 0 =
      Except.error "failed to validate JWT: unexpected signing method" :=
  non_hmac_alg_rejected SigAlg.none_
    { UserID := "u", Description := "d", AllowedDomains := ["a.com"],
      ExpiresAt := some 60, IssuedAt := some 0, NotBefore := some 0,
      Issuer := "go-cert-provider", Subject := "u" }
    (hmacSign SigAlg.none_
      { UserID := "u", Description := "d", AllowedDomains := ["a.com"],
        ExpiresAt := some 60, IssuedAt := some 0, NotBefore := some 0,
        Issuer := "go-cert-provider", Subject := "u" } "k") "k" 0 rfl
